import Mathlib

/-!
Shallow embedding of the query-filter compiler and the MCP JSON-RPC tool
dispatch layer of pbdeuchler/assistant-server, together with theorems about
the behaviour that the specification describes.

The Go sources embedded here are `service/query_params.go` (filter compiler,
entity filter registry) and the MCP handler file (tool catalog, tool
invoker, protocol dispatcher).  Go maps are embedded as association lists:
the list order stands for the (unspecified) iteration order of the map, so a
universally quantified list argument ranges over all iteration orders the Go
runtime may choose.  Go `int` is embedded as `Int`, JSON numbers
(`float64` values decoded from decimal literals) as `Rat`, and fallible
collaborator calls as `Except String`.
-/

namespace AssistantServer

/-- JSON-shaped values as decoded by encoding/json into `map[string]any`:
`nil`, `bool`, `float64`, `string`, `[]any`, `map[string]any`. -/
inductive JValue where
  | null
  | bool (b : Bool)
  | num (q : Rat)
  | str (s : String)
  | arr (xs : List JValue)
  | obj (fields : List (String × JValue))

/-- The `map[string]any` of tool-call arguments, as an association list. -/
abbrev Args := List (String × JValue)

/-- Go type assertion `arguments[key].(string)`: `some s` exactly when the
key is present with a string value. -/
def argString (arguments : Args) (key : String) : Option String :=
  match arguments.lookup key with
  | some (JValue.str s) => some s
  | _ => none

/-- Go type assertion `arguments[key].(float64)`. -/
def argNum (arguments : Args) (key : String) : Option Rat :=
  match arguments.lookup key with
  | some (JValue.num q) => some q
  | _ => none

/-- Go type assertion `arguments[key].(bool)`. -/
def argBool (arguments : Args) (key : String) : Option Bool :=
  match arguments.lookup key with
  | some (JValue.bool b) => some b
  | _ => none

/-- Go conversion `int(l)` on a `float64`: truncation toward zero. -/
def ratTrunc (q : Rat) : Int :=
  Int.tdiv q.num q.den

/-- Values pushed into the positional-argument slice `[]interface{}`:
`BuildWhereClause` pushes either a plain string or a one-element
`[]string`. -/
inductive SqlArg where
  | str (s : String)
  | strArr (xs : List String)
  deriving Repr, DecidableEq

/-- Insertion `m[k] = v` into a Go `map[string]string` embedded as an
association list with distinct keys: replace in place or append. -/
def mapInsert (m : List (String × String)) (k v : String) : List (String × String) :=
  match m with
  | [] => [(k, v)]
  | (k', v') :: rest => if k' = k then (k, v) :: rest else (k', v') :: mapInsert rest k v

/-- Fractional decimal digits of `r / den` (with `r < den`), stopping at the
first zero remainder so no trailing zeros are produced.  The fuel bounds the
expansion; every JSON decimal literal terminates well within it. -/
def fracDigits : Nat → Nat → Nat → List Char
  | 0, _, _ => []
  | _ + 1, 0, _ => []
  | fuel + 1, r, den =>
    let r10 := r * 10
    Char.ofNat ('0'.toNat + r10 / den) :: fracDigits fuel (r10 % den) den

/-- Models `strconv.FormatFloat(v, 'f', -1, 64)` on the rationals arising
from JSON decimal literals: shortest plain decimal form, no exponent, no
trailing zeros. -/
def goFormatFloat (q : Rat) : String :=
  let sign := if q.num < 0 then "-" else ""
  let na := q.num.natAbs
  let ip := na / q.den
  let r := na % q.den
  if r = 0 then sign ++ toString ip
  else sign ++ toString ip ++ "." ++ String.mk (fracDigits 64 r q.den)

/-- Entity filter registry entry (`EntityFilters` in query_params.go). -/
structure EntityFilters where
  SortFields : List String
  Filters : List String
  deriving Repr, DecidableEq

/-- Todo entity configuration. -/
def TodoFilters : EntityFilters :=
  { SortFields := ["uid", "title", "priority", "due_date", "created_at", "updated_at", "user_id", "household_id", "completed_by"],
    Filters := ["title", "priority", "user_id", "household_id", "completed_by", "tags"] }

/-- Notes entity configuration. -/
def NotesFilters : EntityFilters :=
  { SortFields := ["id", "key", "user_id", "household_id", "created_at", "updated_at"],
    Filters := ["key", "user_id", "household_id", "tags"] }

/-- Preferences entity configuration. -/
def PreferencesFilters : EntityFilters :=
  { SortFields := ["key", "specifier", "created_at", "updated_at"],
    Filters := ["key", "specifier", "tags"] }

/-- Recipes entity configuration. -/
def RecipesFilters : EntityFilters :=
  { SortFields := ["id", "title", "genre", "rating", "prep_time", "cook_time", "total_time", "servings", "difficulty", "user_id", "household_id", "created_at", "updated_at"],
    Filters := ["title", "genre", "rating", "difficulty", "user_id", "household_id", "tags"] }

/-- The loop body of `BuildWhereClause`: walk the filter entries in
iteration order carrying `conditions`, `args` and `argIndex` (starting
at 1).  A `"tags"` key is handled first, unconditionally; other keys are
emitted only when found in the allow-list; anything else is skipped. -/
def bwcLoop (allowedFilters : List String) :
    List (String × String) → List String → List SqlArg → Nat → List String × List SqlArg
  | [], conditions, args, _ => (conditions, args)
  | (key, value) :: rest, conditions, args, argIndex =>
    if key = "tags" then
      bwcLoop allowedFilters rest
        (conditions ++ ["tags @> $" ++ toString argIndex])
        (args ++ [SqlArg.strArr [value]]) (argIndex + 1)
    else if key ∈ allowedFilters then
      bwcLoop allowedFilters rest
        (conditions ++ [key ++ " = $" ++ toString argIndex])
        (args ++ [SqlArg.str value]) (argIndex + 1)
    else
      bwcLoop allowedFilters rest conditions args argIndex

/-- `BuildWhereClause(filters, allowedFilters)` from query_params.go.  The
filters map is given in its iteration order. -/
def BuildWhereClause (filters : List (String × String)) (allowedFilters : List String) :
    String × List SqlArg :=
  if filters.isEmpty then ("", [])
  else
    let r := bwcLoop allowedFilters filters [] [] 1
    if r.1.isEmpty then ("", [])
    else ("WHERE " ++ String.intercalate " AND " r.1, r.2)

/-- `BuildFiltersFromMCP(arguments, supportedFilters)` from query_params.go.
String values are inserted when non-empty, numeric values after
`FormatFloat`; the `case int` branch of the Go switch is unreachable for
JSON-decoded arguments and has no counterpart here.  Afterwards the two
synthetic booleans overwrite `completed_by` with a sentinel string. -/
def BuildFiltersFromMCP (arguments : Args) (supportedFilters : List String) :
    List (String × String) :=
  let filters := supportedFilters.foldl (fun acc filterName =>
    match arguments.lookup filterName with
    | some (JValue.str v) => if v ≠ "" then mapInsert acc filterName v else acc
    | some (JValue.num v) => mapInsert acc filterName (goFormatFloat v)
    | _ => acc) []
  let filters :=
    match argBool arguments "completed_only" with
    | some true => mapInsert filters "completed_by" "NOT NULL"
    | _ => filters
  match argBool arguments "pending_only" with
  | some true => mapInsert filters "completed_by" "IS NULL"
  | _ => filters

/-- URL query string `url.Values`: key to list of values, unique keys. -/
abbrev Query := List (String × List String)

/-- `url.Values.Get`: first value for the key, `""` when absent. -/
def queryGet (q : Query) (key : String) : String :=
  match q.lookup key with
  | some (v :: _) => v
  | _ => ""

/-- `strconv.Atoi`: optional sign followed by at least one digit.  Inputs
that Go rejects for overflow are out of the guarded range `[1,1000]` (or
`≥ 0`) at every call site, so parsing them exactly is equivalent. -/
def goAtoi (s : String) : Option Int :=
  match s.data with
  | [] => none
  | c :: rest =>
    let signed : Bool × List Char :=
      if c = '-' then (true, rest)
      else if c = '+' then (false, rest)
      else (false, c :: rest)
    if signed.2 = [] then none
    else if signed.2.all Char.isDigit then
      let n : Nat := signed.2.foldl (fun acc d => acc * 10 + (d.toNat - '0'.toNat)) 0
      some (if signed.1 then -(n : Int) else (n : Int))
    else none

/-- `strings.ToUpper` restricted to ASCII, which covers every input the
comparison against `"ASC"`/`"DESC"` can accept. -/
def asciiToUpper (s : String) : String :=
  String.mk (s.data.map Char.toUpper)

/-- `ListParams` from query_params.go, with the filters map in its
iteration order. -/
structure ListParams where
  Limit : Int
  Offset : Int
  SortBy : String
  SortDir : String
  Filters : List (String × String)
  deriving Repr, DecidableEq

/-- `isReservedParam` from query_params.go. -/
def isReservedParam (key : String) : Bool :=
  ["limit", "offset", "sort_by", "sort_dir"].contains key

/-- `ParseListParams(r, allowedSortFields)` from query_params.go, applied to
the request's decoded query string. -/
def ParseListParams (query : Query) (allowedSortFields : List String) : ListParams :=
  let limit : Int :=
    let s := queryGet query "limit"
    if s ≠ "" then
      match goAtoi s with
      | some l => if 0 < l ∧ l ≤ 1000 then l else 100
      | none => 100
    else 100
  let offset : Int :=
    let s := queryGet query "offset"
    if s ≠ "" then
      match goAtoi s with
      | some o => if 0 ≤ o then o else 0
      | none => 0
    else 0
  let sortBy : String :=
    let s := queryGet query "sort_by"
    if s ≠ "" ∧ s ∈ allowedSortFields then s else "created_at"
  let sortDir : String :=
    let d := asciiToUpper (queryGet query "sort_dir")
    if d = "ASC" ∨ d = "DESC" then d else "DESC"
  let filters : List (String × String) := query.foldl (fun acc kv =>
    if kv.2 ≠ [] ∧ isReservedParam kv.1 = false then mapInsert acc kv.1 (kv.2.headD "") else acc) []
  { Limit := limit, Offset := offset, SortBy := sortBy, SortDir := sortDir, Filters := filters }

/-- The condition text `BuildWhereClause` emits for a key at placeholder
index `n`: containment for `"tags"`, equality otherwise. -/
def condStr (key : String) (n : Nat) : String :=
  if key = "tags" then "tags @> $" ++ toString n else key ++ " = $" ++ toString n

/-- The positional argument `BuildWhereClause` pushes for an emitted
entry: the value wrapped in a one-element array for `"tags"`, the plain
value otherwise. -/
def sqlArgOf (kv : String × String) : SqlArg :=
  if kv.1 = "tags" then SqlArg.strArr [kv.2] else SqlArg.str kv.2

/-- The subsequence of filter entries that `BuildWhereClause` emits, in
iteration order: every `"tags"` entry, plus every entry whose key is in the
allow-list. -/
def emittedEntries (allowedFilters : List String) : List (String × String) → List (String × String)
  | [] => []
  | (k, v) :: rest =>
    if k = "tags" then (k, v) :: emittedEntries allowedFilters rest
    else if k ∈ allowedFilters then (k, v) :: emittedEntries allowedFilters rest
    else emittedEntries allowedFilters rest

/-- Condition texts for a run of emitted entries whose first placeholder
index is `n`. -/
def condsFrom (n : Nat) : List (String × String) → List String
  | [] => []
  | kv :: rest => condStr kv.1 n :: condsFrom (n + 1) rest

lemma emittedEntries_append (allowed : List String) (xs ys : List (String × String)) :
    emittedEntries allowed (xs ++ ys) = emittedEntries allowed xs ++ emittedEntries allowed ys := by
  induction xs with
  | nil => simp [emittedEntries]
  | cons kv rest ih =>
    obtain ⟨k, v⟩ := kv
    by_cases hk : k = "tags"
    · simp [emittedEntries, hk, ih]
    · by_cases hm : k ∈ allowed
      · simp [emittedEntries, hk, hm, ih]
      · simp [emittedEntries, hk, hm, ih]

lemma emittedEntries_eq_filter (allowed : List String) (fs : List (String × String)) :
    emittedEntries allowed fs =
      fs.filter (fun kv => decide (kv.1 = "tags" ∨ kv.1 ∈ allowed)) := by
  induction fs with
  | nil => simp [emittedEntries]
  | cons kv rest ih =>
    obtain ⟨k, v⟩ := kv
    by_cases hk : k = "tags"
    · simp [emittedEntries, hk, ih, List.filter_cons]
    · by_cases hm : k ∈ allowed
      · simp [emittedEntries, hk, hm, ih, List.filter_cons]
      · simp [emittedEntries, hk, hm, ih, List.filter_cons]

lemma condsFrom_length (xs : List (String × String)) : ∀ n, (condsFrom n xs).length = xs.length := by
  induction xs with
  | nil => intro n; simp [condsFrom]
  | cons kv rest ih => intro n; simp [condsFrom, ih]

lemma condsFrom_getElem (xs : List (String × String)) :
    ∀ n i : Nat, (condsFrom n xs)[i]? = (xs[i]?).map (fun kv => condStr kv.1 (n + i)) := by
  induction xs with
  | nil => intro n i; simp [condsFrom]
  | cons kv rest ih =>
    intro n i
    cases i with
    | zero => simp [condsFrom]
    | succ j =>
      have harith : n + 1 + j = n + (j + 1) := by omega
      simp [condsFrom, ih (n + 1) j, harith]

lemma bwcLoop_eq (allowed : List String) (fs : List (String × String)) :
    ∀ (conditions : List String) (args : List SqlArg) (n : Nat),
      bwcLoop allowed fs conditions args n =
        (conditions ++ condsFrom n (emittedEntries allowed fs),
         args ++ (emittedEntries allowed fs).map sqlArgOf) := by
  induction fs with
  | nil => intro conditions args n; simp [bwcLoop, emittedEntries, condsFrom]
  | cons kv rest ih =>
    intro conditions args n
    obtain ⟨k, v⟩ := kv
    by_cases hk : k = "tags"
    · simp [bwcLoop, hk, emittedEntries, condsFrom, condStr, sqlArgOf, ih]
    · by_cases hm : k ∈ allowed
      · simp [bwcLoop, hk, hm, emittedEntries, condsFrom, condStr, sqlArgOf, ih]
      · simp [bwcLoop, hk, hm, emittedEntries, ih]

lemma buildWhereClause_eq (fs : List (String × String)) (allowed : List String) :
    BuildWhereClause fs allowed =
      if emittedEntries allowed fs = [] then ("", [])
      else ("WHERE " ++ String.intercalate " AND " (condsFrom 1 (emittedEntries allowed fs)),
            (emittedEntries allowed fs).map sqlArgOf) := by
  unfold BuildWhereClause
  cases fs with
  | nil => simp [emittedEntries]
  | cons kv rest =>
    rw [bwcLoop_eq allowed (kv :: rest) [] [] 1]
    by_cases h : emittedEntries allowed (kv :: rest) = []
    · simp [h, condsFrom]
    · have hlen : (condsFrom 1 (emittedEntries allowed (kv :: rest))).length ≠ 0 := by
        rw [condsFrom_length]
        exact fun hc => h (List.eq_nil_of_length_eq_zero hc)
      have hne : condsFrom 1 (emittedEntries allowed (kv :: rest)) ≠ [] := by
        intro hc; exact hlen (by simp [hc])
      simp [h, hne]

lemma buildWhereClause_args (fs : List (String × String)) (allowed : List String) :
    (BuildWhereClause fs allowed).2 = (emittedEntries allowed fs).map sqlArgOf := by
  rw [buildWhereClause_eq]
  by_cases h : emittedEntries allowed fs = [] <;> simp [h]

lemma buildWhereClause_clause (fs : List (String × String)) (allowed : List String)
    (h : emittedEntries allowed fs ≠ []) :
    (BuildWhereClause fs allowed).1 =
      "WHERE " ++ String.intercalate " AND " (condsFrom 1 (emittedEntries allowed fs)) := by
  rw [buildWhereClause_eq]
  simp [h]

lemma where_prefixed_ne_empty (s : String) : "WHERE " ++ s ≠ "" := by
  intro h
  have hd := congrArg (fun t => t.data.length) h
  simp only [String.data_append] at hd
  simp at hd

lemma tags_containment_ne_equality (a b : String) :
    "tags @> $" ++ a ≠ "tags = $" ++ b := by
  intro h
  have hd : ("tags @> $" ++ a).data = ("tags = $" ++ b).data := congrArg String.data h
  rw [String.data_append, String.data_append] at hd
  have h5 : (("tags @> $").data ++ a.data)[5]? = (("tags = $").data ++ b.data)[5]? := by rw [hd]
  rw [List.getElem?_append_left (by decide), List.getElem?_append_left (by decide)] at h5
  simp at h5

/-- C1: for every filters map (in any iteration order) and every allow-list,
the compiled WHERE clause consists of the emitted entries' conditions where
the condition at position `i` carries placeholder `$(i+1)`, the argument
list has exactly one entry per condition with `args[i]` being the value of
the `i`-th emitted entry (so placeholder `$n` corresponds to `args[n-1]`),
and when no conditions are produced (in particular for an empty map) the
result is the empty string with no args. -/
theorem buildWhereClause_placeholder_alignment (fs : List (String × String))
    (allowed : List String) :
    (BuildWhereClause fs allowed).2.length = (emittedEntries allowed fs).length ∧
    ((BuildWhereClause fs allowed).1 = "" ↔ emittedEntries allowed fs = []) ∧
    (emittedEntries allowed fs ≠ [] →
      (BuildWhereClause fs allowed).1 =
        "WHERE " ++ String.intercalate " AND " (condsFrom 1 (emittedEntries allowed fs))) ∧
    (∀ i : Nat, (condsFrom 1 (emittedEntries allowed fs))[i]? =
      ((emittedEntries allowed fs)[i]?).map (fun kv => condStr kv.1 (i + 1))) ∧
    (∀ i : Nat, ((BuildWhereClause fs allowed).2)[i]? =
      ((emittedEntries allowed fs)[i]?).map sqlArgOf) ∧
    (fs = [] → BuildWhereClause fs allowed = ("", [])) := by
  refine ⟨?_, ⟨?_, ?_⟩, ?_, ?_, ?_, ?_⟩
  · rw [buildWhereClause_args]; simp
  · intro h
    by_contra hne
    rw [buildWhereClause_clause fs allowed hne] at h
    exact where_prefixed_ne_empty _ h
  · intro h
    rw [buildWhereClause_eq]
    simp [h]
  · exact buildWhereClause_clause fs allowed
  · intro i
    have := condsFrom_getElem (emittedEntries allowed fs) 1 i
    simpa [Nat.add_comm] using this
  · intro i
    rw [buildWhereClause_args]
    simp
  · intro h
    subst h
    rfl

/-- C1 witness: the alignment theorem applied at the spec example
`buildWhereClause({status:"active"}, ["status","name"])`. -/
theorem buildWhereClause_placeholder_alignment_witness :
    (BuildWhereClause [("status", "active")] ["status", "name"]).1 =
      "WHERE " ++ String.intercalate " AND "
        (condsFrom 1 (emittedEntries ["status", "name"] [("status", "active")])) ∧
    ((BuildWhereClause [("status", "active")] ["status", "name"]).2)[0]? =
      some (SqlArg.str "active") :=
  ⟨(buildWhereClause_placeholder_alignment [("status", "active")] ["status", "name"]).2.2.1
      (by decide),
   by
    rw [(buildWhereClause_placeholder_alignment [("status", "active")] ["status", "name"]).2.2.2.2.1 0]
    decide⟩

/-- C2 counterexample: a `"tags"` entry whose key is NOT in the allow-list
still contributes a condition and an argument, because `BuildWhereClause`
handles `"tags"` before consulting the allow-list.  Under the claim the
result would have to be `("", [])`. -/
theorem tags_bypasses_allowlist_cex :
    BuildWhereClause [("tags", "urgent")] [] ≠ ("", []) ∧
    BuildWhereClause [("tags", "urgent")] [] =
      ("WHERE tags @> $1", [SqlArg.strArr ["urgent"]]) := by decide

/-- C2 amended: every filter entry whose key is not in the allow-list AND is
not the special key `"tags"` contributes no condition text and no positional
argument; a `"tags"` entry is emitted regardless of the allow-list. -/
theorem nonTags_not_in_allowlist_dropped (pre post : List (String × String))
    (allowed : List String) (k v : String) (hk : k ≠ "tags") (ha : k ∉ allowed) :
    BuildWhereClause (pre ++ (k, v) :: post) allowed =
      BuildWhereClause (pre ++ post) allowed := by
  have he : emittedEntries allowed (pre ++ (k, v) :: post) =
      emittedEntries allowed (pre ++ post) := by
    rw [emittedEntries_append, emittedEntries_append]
    simp [emittedEntries, hk, ha]
  rw [buildWhereClause_eq, buildWhereClause_eq, he]

/-- C2 amended witness: a non-allow-listed `"password"` entry is dropped. -/
theorem nonTags_not_in_allowlist_dropped_witness :
    BuildWhereClause ([("status", "active")] ++ ("password", "secret") :: []) ["status"] =
      BuildWhereClause ([("status", "active")] ++ []) ["status"] :=
  nonTags_not_in_allowlist_dropped [("status", "active")] [] ["status"] "password" "secret"
    (by decide) (by decide)

/-- C3: any filters map containing a `("tags", v)` entry compiles that entry
to the containment condition `tags @> $n` (where `n - 1` is the number of
entries emitted before it) with `[v]` pushed as the corresponding argument,
and the condition emitted for a `"tags"` entry is never the equality
`tags = $m`. -/
theorem tags_filter_compiles_to_containment (fs : List (String × String))
    (allowed : List String) (pre post : List (String × String)) (v : String)
    (hfs : fs = pre ++ ("tags", v) :: post) :
    (emittedEntries allowed fs)[(emittedEntries allowed pre).length]? = some ("tags", v) ∧
    (condsFrom 1 (emittedEntries allowed fs))[(emittedEntries allowed pre).length]? =
      some ("tags @> $" ++ toString ((emittedEntries allowed pre).length + 1)) ∧
    ((BuildWhereClause fs allowed).2)[(emittedEntries allowed pre).length]? =
      some (SqlArg.strArr [v]) ∧
    (BuildWhereClause fs allowed).1 =
      "WHERE " ++ String.intercalate " AND " (condsFrom 1 (emittedEntries allowed fs)) ∧
    (∀ i : Nat, ∀ w : String, (emittedEntries allowed fs)[i]? = some ("tags", w) →
      (condsFrom 1 (emittedEntries allowed fs))[i]? =
          some ("tags @> $" ++ toString (i + 1)) ∧
      ∀ m : Nat, "tags @> $" ++ toString (i + 1) ≠ "tags = $" ++ toString m) := by
  subst hfs
  have he : emittedEntries allowed (pre ++ ("tags", v) :: post) =
      emittedEntries allowed pre ++ ("tags", v) :: emittedEntries allowed post := by
    rw [emittedEntries_append]
    simp [emittedEntries]
  have hget : (emittedEntries allowed (pre ++ ("tags", v) :: post))[(emittedEntries allowed pre).length]? =
      some ("tags", v) := by
    rw [he, List.getElem?_append_right (le_refl _)]
    simp
  refine ⟨hget, ?_, ?_, ?_, ?_⟩
  · rw [condsFrom_getElem, hget]
    simp [condStr, Nat.add_comm]
  · rw [buildWhereClause_args]
    rw [List.getElem?_map, hget]
    simp [sqlArgOf]
  · refine buildWhereClause_clause _ _ ?_
    intro hnil
    rw [hnil] at hget
    simp at hget
  · intro i w hi
    refine ⟨?_, fun m => tags_containment_ne_equality _ _⟩
    rw [condsFrom_getElem, hi]
    simp [condStr, Nat.add_comm]

/-- C3 witness: the containment theorem applied at
`{priority:"1", tags:"urgent"}` with the Todo allow-list. -/
theorem tags_filter_compiles_to_containment_witness :
    (condsFrom 1 (emittedEntries TodoFilters.Filters
        ([("priority", "1")] ++ ("tags", "urgent") :: [])))[(emittedEntries TodoFilters.Filters [("priority", "1")]).length]? =
      some ("tags @> $" ++ toString ((emittedEntries TodoFilters.Filters [("priority", "1")]).length + 1)) ∧
    ((BuildWhereClause ([("priority", "1")] ++ ("tags", "urgent") :: []) TodoFilters.Filters).2)[(emittedEntries TodoFilters.Filters [("priority", "1")]).length]? =
      some (SqlArg.strArr ["urgent"]) :=
  ⟨(tags_filter_compiles_to_containment _ TodoFilters.Filters [("priority", "1")] [] "urgent"
      rfl).2.1,
   (tags_filter_compiles_to_containment _ TodoFilters.Filters [("priority", "1")] [] "urgent"
      rfl).2.2.1⟩

/-- C4 counterexample: the same key/value pairs presented in two different
map iteration orders (which the Go runtime does not fix) compile to
different WHERE text and argument order. -/
theorem buildWhereClause_order_dependent_cex :
    ([("status", "active"), ("name", "test")] : List (String × String)).Perm
        [("name", "test"), ("status", "active")] ∧
    BuildWhereClause [("status", "active"), ("name", "test")] ["status", "name"] ≠
      BuildWhereClause [("name", "test"), ("status", "active")] ["status", "name"] := by
  constructor
  · decide
  · decide

/-- C4 amended: compilation is deterministic only relative to the iteration
order; across two iteration orders of the same key/value pairs the emitted
entries are a permutation of one another and the argument count agrees (and
placeholder-argument alignment holds for each order), but the exact clause
text and argument order may differ. -/
theorem buildWhereClause_perm_invariant (fs₁ fs₂ : List (String × String))
    (allowed : List String) (h : fs₁.Perm fs₂) :
    (emittedEntries allowed fs₁).Perm (emittedEntries allowed fs₂) ∧
    (BuildWhereClause fs₁ allowed).2.length = (BuildWhereClause fs₂ allowed).2.length := by
  have hp : (emittedEntries allowed fs₁).Perm (emittedEntries allowed fs₂) := by
    rw [emittedEntries_eq_filter, emittedEntries_eq_filter]
    exact h.filter _
  refine ⟨hp, ?_⟩
  rw [buildWhereClause_args, buildWhereClause_args]
  simp [hp.length_eq]

/-- C4 amended witness: the permutation invariant applied to the two
orderings from the counterexample. -/
theorem buildWhereClause_perm_invariant_witness :
    (BuildWhereClause [("status", "active"), ("name", "test")] ["status", "name"]).2.length =
      (BuildWhereClause [("name", "test"), ("status", "active")] ["status", "name"]).2.length :=
  (buildWhereClause_perm_invariant [("status", "active"), ("name", "test")]
    [("name", "test"), ("status", "active")] ["status", "name"] (by decide)).2

/-- C5: `BuildFiltersFromMCP` does synthesize the sentinel filters
`completed_by = "NOT NULL"` (for `completed_only = true`) and
`completed_by = "IS NULL"` (for `pending_only = true`), but downstream
compilation does NOT special-case the sentinels: `BuildWhereClause` treats
them as ordinary values and compiles `completed_by = $1` with the sentinel
text as the positional argument. -/
theorem sentinel_filters_compile_to_equality :
    BuildFiltersFromMCP [("completed_only", JValue.bool true)] TodoFilters.Filters =
      [("completed_by", "NOT NULL")] ∧
    BuildFiltersFromMCP [("pending_only", JValue.bool true)] TodoFilters.Filters =
      [("completed_by", "IS NULL")] ∧
    BuildWhereClause [("completed_by", "NOT NULL")] TodoFilters.Filters =
      ("WHERE completed_by = $1", [SqlArg.str "NOT NULL"]) ∧
    BuildWhereClause [("completed_by", "IS NULL")] TodoFilters.Filters =
      ("WHERE completed_by = $1", [SqlArg.str "IS NULL"]) := by
  refine ⟨by decide, by decide, by decide, by decide⟩

lemma ParseListParams_Limit (query : Query) (allowed : List String) :
    (ParseListParams query allowed).Limit =
      (if queryGet query "limit" ≠ "" then
        match goAtoi (queryGet query "limit") with
        | some l => if 0 < l ∧ l ≤ 1000 then l else 100
        | none => 100
      else 100) := rfl

lemma ParseListParams_SortBy (query : Query) (allowed : List String) :
    (ParseListParams query allowed).SortBy =
      (if queryGet query "sort_by" ≠ "" ∧ queryGet query "sort_by" ∈ allowed then
        queryGet query "sort_by"
      else "created_at") := rfl

lemma ParseListParams_SortDir (query : Query) (allowed : List String) :
    (ParseListParams query allowed).SortDir =
      (if asciiToUpper (queryGet query "sort_dir") = "ASC" ∨
          asciiToUpper (queryGet query "sort_dir") = "DESC" then
        asciiToUpper (queryGet query "sort_dir")
      else "DESC") := rfl

lemma goAtoi_empty : goAtoi "" = none := rfl

/-- C6 amended: every `ParseListParams` result has `Limit ∈ [1,1000]`, with
in-range parsed limits accepted unchanged and everything else (zero,
negative, over 1000, non-numeric, absent) reset to the default 100;
`SortBy` equals the requested value when that value is NONEMPTY and in the
caller-supplied allow-list, and is `"created_at"` otherwise; `SortDir` is
always `"ASC"` or `"DESC"`, matching the uppercased request when that is one
of the two and defaulting to `"DESC"`. -/
theorem parseListParams_normalization (query : Query) (allowed : List String) :
    (1 ≤ (ParseListParams query allowed).Limit ∧
      (ParseListParams query allowed).Limit ≤ 1000) ∧
    (∀ l : Int, goAtoi (queryGet query "limit") = some l → 0 < l → l ≤ 1000 →
      (ParseListParams query allowed).Limit = l) ∧
    (∀ l : Int, goAtoi (queryGet query "limit") = some l → ¬(0 < l ∧ l ≤ 1000) →
      (ParseListParams query allowed).Limit = 100) ∧
    (goAtoi (queryGet query "limit") = none → (ParseListParams query allowed).Limit = 100) ∧
    (queryGet query "sort_by" ≠ "" → queryGet query "sort_by" ∈ allowed →
      (ParseListParams query allowed).SortBy = queryGet query "sort_by") ∧
    (queryGet query "sort_by" ∉ allowed →
      (ParseListParams query allowed).SortBy = "created_at") ∧
    (queryGet query "sort_by" = "" →
      (ParseListParams query allowed).SortBy = "created_at") ∧
    ((ParseListParams query allowed).SortDir = "ASC" ∨
      (ParseListParams query allowed).SortDir = "DESC") ∧
    (asciiToUpper (queryGet query "sort_dir") = "ASC" →
      (ParseListParams query allowed).SortDir = "ASC") ∧
    (asciiToUpper (queryGet query "sort_dir") = "DESC" →
      (ParseListParams query allowed).SortDir = "DESC") ∧
    (asciiToUpper (queryGet query "sort_dir") ≠ "ASC" →
      asciiToUpper (queryGet query "sort_dir") ≠ "DESC" →
      (ParseListParams query allowed).SortDir = "DESC") := by
  refine ⟨?_, ?_, ?_, ?_, ?_, ?_, ?_, ?_, ?_, ?_, ?_⟩
  · rw [ParseListParams_Limit]
    by_cases hs : queryGet query "limit" = ""
    · simp [hs]
    · simp only [if_pos (by simpa using hs)]
      cases hA : goAtoi (queryGet query "limit") with
      | none => norm_num
      | some l =>
        by_cases hr : 0 < l ∧ l ≤ 1000
        · simp [hr]
          omega
        · simp only [if_neg hr]; norm_num
  · intro l hA h1 h2
    have hs : queryGet query "limit" ≠ "" := by
      intro hempty; rw [hempty, goAtoi_empty] at hA; exact Option.noConfusion hA
    rw [ParseListParams_Limit]
    simp [hs, hA, h1, h2]
  · intro l hA hr
    have hs : queryGet query "limit" ≠ "" := by
      intro hempty; rw [hempty, goAtoi_empty] at hA; exact Option.noConfusion hA
    rw [ParseListParams_Limit]
    simp [hs, hA, hr]
  · intro hA
    rw [ParseListParams_Limit]
    by_cases hs : queryGet query "limit" = ""
    · simp [hs]
    · simp [hs, hA]
  · intro hne hmem
    rw [ParseListParams_SortBy]
    simp [hne, hmem]
  · intro hmem
    rw [ParseListParams_SortBy]
    simp only [ite_eq_right_iff, and_imp]
    intro _ hm
    exact absurd hm hmem
  · intro hempty
    rw [ParseListParams_SortBy]
    simp [hempty]
  · rw [ParseListParams_SortDir]
    by_cases hA : asciiToUpper (queryGet query "sort_dir") = "ASC"
    · simp [hA]
    · by_cases hD : asciiToUpper (queryGet query "sort_dir") = "DESC"
      · simp [hA, hD]
      · simp [hA, hD]
  · intro hA
    rw [ParseListParams_SortDir]
    simp [hA]
  · intro hD
    rw [ParseListParams_SortDir]
    simp [hD]
  · intro hA hD
    rw [ParseListParams_SortDir]
    simp [hA, hD]

/-- C6 amended witness: the normalization theorem applied at
`?limit=50&sort_by=updated_at&sort_dir=asc` with allow-list
`[created_at, updated_at]`, plus the reset cases for `limit=0` and
`limit=1001`. -/
theorem parseListParams_normalization_witness :
    (ParseListParams [("limit", ["50"]), ("sort_by", ["updated_at"]), ("sort_dir", ["asc"])]
        ["created_at", "updated_at"]).Limit = 50 ∧
    (ParseListParams [("limit", ["50"]), ("sort_by", ["updated_at"]), ("sort_dir", ["asc"])]
        ["created_at", "updated_at"]).SortBy = "updated_at" ∧
    (ParseListParams [("limit", ["50"]), ("sort_by", ["updated_at"]), ("sort_dir", ["asc"])]
        ["created_at", "updated_at"]).SortDir = "ASC" ∧
    (ParseListParams [("limit", ["0"])] ["created_at"]).Limit = 100 ∧
    (ParseListParams [("limit", ["1001"])] ["created_at"]).Limit = 100 ∧
    (ParseListParams [("limit", ["1000"])] ["created_at"]).Limit = 1000 :=
  ⟨(parseListParams_normalization _ _).2.1 50 (by decide) (by decide) (by decide),
   (parseListParams_normalization _ _).2.2.2.2.1 (by decide) (by decide),
   (parseListParams_normalization _ _).2.2.2.2.2.2.2.2.1 (by decide),
   (parseListParams_normalization _ _).2.2.1 0 (by decide) (by decide),
   (parseListParams_normalization _ _).2.2.1 1001 (by decide) (by decide),
   (parseListParams_normalization _ _).2.1 1000 (by decide) (by decide) (by decide)⟩

/-- C6 counterexample: with the empty string a member of the allow-list and
the request carrying `sort_by=` (empty requested value), the requested value
IS in the allow-list yet the result is reset to `"created_at"`, so "sortBy
equals the requested value when it is in the caller-supplied allow-list"
fails as stated. -/
theorem parseListParams_sortBy_cex :
    queryGet [("sort_by", [""])] "sort_by" ∈ ([""] : List String) ∧
    (ParseListParams [("sort_by", [""])] [""]).SortBy ≠
      queryGet [("sort_by", [""])] "sort_by" := by
  constructor
  · decide
  · decide

/-- One text block of a tool result (`mcp.TextContent`). -/
structure TextContent where
  type : String
  text : String
  deriving Repr, DecidableEq

/-- `mcp.CallToolResult`: the uniform envelope every tool handler
produces.  The zero value of `IsError` is `false`. -/
structure CallToolResult where
  IsError : Bool := false
  Content : List TextContent
  deriving Repr, DecidableEq

/-- One parameter descriptor of a tool (`mcp.WithString` and friends). -/
structure ToolParam where
  name : String
  ptype : String
  required : Bool := false
  description : String
  deriving Repr, DecidableEq

/-- One tool descriptor of the catalog (`mcp.Tool`). -/
structure Tool where
  name : String
  description : String
  params : List ToolParam
  deriving Repr, DecidableEq

/-- Entity rows and update payloads, modelled from the fields the MCP
handlers construct (`dao` package).  `time.Time` values that only pass
through the handlers are carried as rendered strings. -/
structure Todo where
  UID : String
  Title : String
  Description : String
  Data : String
  Priority : Int
  DueDate : Option String := none
  UserUID : Option String := none
  HouseholdUID : Option String := none

/-- Partial todo update (`dao.UpdateTodo`), restricted to the fields
`complete_todo` sets. -/
structure UpdateTodo where
  MarkedComplete : Option String := none
  CompletedBy : Option String := none

/-- Notes row (`dao.Notes`) as constructed by `save_note`. -/
structure Notes where
  ID : String
  Key : String
  UserUID : Option String := none
  HouseholdUID : Option String := none
  Data : String
  Tags : List String := []

/-- Preferences row (`dao.Preferences`) as constructed by
`set_preference`. -/
structure Preferences where
  Key : String
  Specifier : String
  Data : String
  Tags : List String := []

/-- Recipes row (`dao.Recipes`) as constructed by `save_recipe`. -/
structure Recipes where
  ID : String
  Title : String
  Data : String
  Genre : Option String := none
  GroceryList : Option String := none
  PrepTime : Option Int := none
  CookTime : Option Int := none
  TotalTime : Option Int := none
  Servings : Option Int := none
  Difficulty : Option String := none
  Rating : Option Int := none
  Tags : List String := []
  UserUID : Option String := none
  HouseholdUID : Option String := none

/-- User row (`dao.Users`). -/
structure Users where
  UID : String
  Name : String
  Email : String
  Description : String
  CreatedAt : String
  UpdatedAt : String

/-- Household row (`dao.Households`). -/
structure Households where
  UID : String
  Name : String
  Description : String
  CreatedAt : String
  UpdatedAt : String

/-- Partial user update (`dao.UpdateUser`), restricted to the field
`update_user_description` sets. -/
structure UpdateUser where
  Description : Option String := none

/-- Partial household update (`dao.UpdateHousehold`). -/
structure UpdateHousehold where
  Description : Option String := none

/-- `dao.ListOptions` handed to the persistence collaborator. -/
structure ListOptions where
  Limit : Int
  Offset : Int
  SortBy : String
  SortDir : String
  WhereClause : String
  WhereArgs : List SqlArg

/-- The external collaborators of the MCP handlers: the persistence DAOs
(fallible, returning `Except`), plus the library effects the handlers use —
`uuid.NewString`, `time.Now`, `time.Parse(time.RFC3339, ...)` and
`json.Marshal` on each row type.  Quantifying over an `Env` quantifies over
every behaviour of these collaborators. -/
structure Env where
  createTodo : Todo → Except String Todo
  updateTodo : String → UpdateTodo → Except String Todo
  listTodos : ListOptions → Except String (List Todo)
  createNotes : Notes → Except String Notes
  getNotes : String → Except String Notes
  listNotes : ListOptions → Except String (List Notes)
  getPreferences : String → String → Except String Preferences
  createPreferences : Preferences → Except String Preferences
  updatePreferences : String → String → Preferences → Except String Preferences
  createRecipes : Recipes → Except String Recipes
  getRecipes : String → Except String Recipes
  listRecipes : ListOptions → Except String (List Recipes)
  updateUser : String → UpdateUser → Except String Users
  updateHousehold : String → UpdateHousehold → Except String Households
  newUUID : String
  now : String
  parseRFC3339 : String → Option String
  marshalTodoList : List Todo → String
  marshalNotes : Notes → String
  marshalNotesList : List Notes → String
  marshalPreferences : Preferences → String
  marshalRecipes : Recipes → String
  marshalRecipesList : List Recipes → String
  marshalUsers : Users → String
  marshalHouseholds : Households → String

/-- `strings.Split(s, ",")` followed by `strings.TrimSpace` on each part,
guarded by `s != ""` as at every call site. -/
def goSplitTags (s : String) : List String :=
  if s ≠ "" then (s.splitOn ",").map String.trim else []

/-- The shared `limit` normalization at the top of `handleListTodos`,
`handleListNotes` and `handleFindRecipes`: default 20, replaced by `int(l)`
whenever a numeric `limit` argument is positive. -/
def mcpLimit (arguments : Args) : Int :=
  match arguments.lookup "limit" with
  | some (JValue.num l) => if 0 < l then ratTrunc l else 20
  | _ => 20

/-- `handleCreateTodo`. -/
def handleCreateTodo (env : Env) (arguments : Args) : CallToolResult :=
  let title := (argString arguments "title").getD ""
  if title = "" then
    { IsError := true, Content := [⟨"text", "Error: title is required"⟩] }
  else
    let priority : Int :=
      match argNum arguments "priority" with
      | some p => if 1 ≤ p ∧ p ≤ 5 then ratTrunc p else 3
      | none => 3
    let description := (argString arguments "description").getD ""
    let userUID := (argString arguments "user_uid").getD ""
    let householdUID := (argString arguments "household_uid").getD ""
    let dueDate : Option String :=
      match argString arguments "due_date" with
      | some s => if s ≠ "" then env.parseRFC3339 s else none
      | none => none
    let todo : Todo :=
      { UID := env.newUUID, Title := title, Description := description, Data := "\x7b\x7d",
        Priority := priority, DueDate := dueDate, UserUID := some userUID,
        HouseholdUID := some householdUID }
    match env.createTodo todo with
    | Except.error e =>
      { IsError := true, Content := [⟨"text", "Error: Failed to create todo: " ++ e⟩] }
    | Except.ok created =>
      { Content := [⟨"text", "Todo created successfully with ID: " ++ created.UID⟩] }

/-- The `dao.ListOptions` that `handleListTodos` hands to the
collaborator. -/
def listTodosOptions (arguments : Args) : ListOptions :=
  let limit := mcpLimit arguments
  let filters := BuildFiltersFromMCP arguments TodoFilters.Filters
  let r := BuildWhereClause filters TodoFilters.Filters
  { Limit := limit, Offset := 0, SortBy := "due_date", SortDir := "ASC",
    WhereClause := r.1, WhereArgs := r.2 }

/-- `handleListTodos`. -/
def handleListTodos (env : Env) (arguments : Args) : CallToolResult :=
  match env.listTodos (listTodosOptions arguments) with
  | Except.error e =>
    { IsError := true, Content := [⟨"text", "Error: Failed to list todos: " ++ e⟩] }
  | Except.ok todos =>
    { Content := [⟨"text", env.marshalTodoList todos⟩] }

/-- `handleCompleteTodo`. -/
def handleCompleteTodo (env : Env) (arguments : Args) : CallToolResult :=
  let todoID := (argString arguments "todo_id").getD ""
  if todoID = "" then
    { IsError := true, Content := [⟨"text", "Error: todo_id is required"⟩] }
  else
    let completedBy := (argString arguments "completed_by").getD ""
    let update : UpdateTodo :=
      { MarkedComplete := some env.now,
        CompletedBy := if completedBy ≠ "" then some completedBy else none }
    match env.updateTodo todoID update with
    | Except.error e =>
      { IsError := true, Content := [⟨"text", "Error: Failed to complete todo: " ++ e⟩] }
    | Except.ok _ =>
      { Content := [⟨"text", "Todo " ++ todoID ++ " marked as completed"⟩] }

/-- `handleSaveNote`. -/
def handleSaveNote (env : Env) (arguments : Args) : CallToolResult :=
  let key := (argString arguments "key").getD ""
  if key = "" then
    { IsError := true, Content := [⟨"text", "Error: key is required"⟩] }
  else
    let data := (argString arguments "data").getD ""
    if data = "" then
      { IsError := true, Content := [⟨"text", "Error: data is required"⟩] }
    else
      let userUID := (argString arguments "user_uid").getD ""
      let householdUID := (argString arguments "household_uid").getD ""
      let tags := goSplitTags ((argString arguments "tags").getD "")
      let note : Notes :=
        { ID := env.newUUID, Key := key, UserUID := some userUID,
          HouseholdUID := some householdUID, Data := data, Tags := tags }
      match env.createNotes note with
      | Except.error e =>
        { IsError := true, Content := [⟨"text", "Error: Failed to save note: " ++ e⟩] }
      | Except.ok created =>
        { Content := [⟨"text", "Note saved successfully with ID: " ++ created.ID⟩] }

/-- `handleRecallNote`. -/
def handleRecallNote (env : Env) (arguments : Args) : CallToolResult :=
  let noteID := (argString arguments "note_id").getD ""
  if noteID = "" then
    { IsError := true, Content := [⟨"text", "Error: note_id is required"⟩] }
  else
    match env.getNotes noteID with
    | Except.error e =>
      { IsError := true, Content := [⟨"text", "Error: Note not found: " ++ e⟩] }
    | Except.ok note =>
      { Content := [⟨"text", env.marshalNotes note⟩] }

/-- The `dao.ListOptions` that `handleListNotes` hands to the
collaborator. -/
def listNotesOptions (arguments : Args) : ListOptions :=
  let limit := mcpLimit arguments
  let filters := BuildFiltersFromMCP arguments NotesFilters.Filters
  let r := BuildWhereClause filters NotesFilters.Filters
  { Limit := limit, Offset := 0, SortBy := "created_at", SortDir := "DESC",
    WhereClause := r.1, WhereArgs := r.2 }

/-- `handleListNotes`. -/
def handleListNotes (env : Env) (arguments : Args) : CallToolResult :=
  match env.listNotes (listNotesOptions arguments) with
  | Except.error e =>
    { IsError := true, Content := [⟨"text", "Error: Failed to list notes: " ++ e⟩] }
  | Except.ok notes =>
    { Content := [⟨"text", env.marshalNotesList notes⟩] }

/-- `handleSetPreference`. -/
def handleSetPreference (env : Env) (arguments : Args) : CallToolResult :=
  let key := (argString arguments "key").getD ""
  if key = "" then
    { IsError := true, Content := [⟨"text", "Error: key is required"⟩] }
  else
    let specifier := (argString arguments "specifier").getD ""
    if specifier = "" then
      { IsError := true, Content := [⟨"text", "Error: specifier is required"⟩] }
    else
      let data := (argString arguments "data").getD ""
      if data = "" then
        { IsError := true, Content := [⟨"text", "Error: data is required"⟩] }
      else
        let tags := goSplitTags ((argString arguments "tags").getD "")
        let pref : Preferences := { Key := key, Specifier := specifier, Data := data, Tags := tags }
        match env.getPreferences key specifier with
        | Except.ok _ =>
          match env.updatePreferences key specifier pref with
          | Except.error e =>
            { IsError := true,
              Content := [⟨"text", "Error: Failed to update preference: " ++ e⟩] }
          | Except.ok _ =>
            { Content := [⟨"text", "Preference updated: " ++ key ++ "/" ++ specifier⟩] }
        | Except.error _ =>
          match env.createPreferences pref with
          | Except.error e =>
            { IsError := true,
              Content := [⟨"text", "Error: Failed to create preference: " ++ e⟩] }
          | Except.ok _ =>
            { Content := [⟨"text", "Preference created: " ++ key ++ "/" ++ specifier⟩] }

/-- `handleGetPreference`. -/
def handleGetPreference (env : Env) (arguments : Args) : CallToolResult :=
  let key := (argString arguments "key").getD ""
  if key = "" then
    { IsError := true, Content := [⟨"text", "Error: key is required"⟩] }
  else
    let specifier := (argString arguments "specifier").getD ""
    if specifier = "" then
      { IsError := true, Content := [⟨"text", "Error: specifier is required"⟩] }
    else
      match env.getPreferences key specifier with
      | Except.error e =>
        { IsError := true, Content := [⟨"text", "Error: Preference not found: " ++ e⟩] }
      | Except.ok pref =>
        { Content := [⟨"text", env.marshalPreferences pref⟩] }

/-- `handleSaveRecipe`. -/
def handleSaveRecipe (env : Env) (arguments : Args) : CallToolResult :=
  let title := (argString arguments "title").getD ""
  if title = "" then
    { IsError := true, Content := [⟨"text", "Error: title is required"⟩] }
  else
    let data := (argString arguments "data").getD ""
    if data = "" then
      { IsError := true, Content := [⟨"text", "Error: data is required"⟩] }
    else
      let genre := (argString arguments "genre").getD ""
      let groceryList := (argString arguments "grocery_list").getD ""
      let userUID := (argString arguments "user_uid").getD ""
      let householdUID := (argString arguments "household_uid").getD ""
      let tags := goSplitTags ((argString arguments "tags").getD "")
      let prepTime : Option Int := (argNum arguments "prep_time").map ratTrunc
      let cookTime : Option Int := (argNum arguments "cook_time").map ratTrunc
      let servings : Option Int := (argNum arguments "servings").map ratTrunc
      let difficulty : Option Int :=
        match argNum arguments "difficulty" with
        | some d => if 1 ≤ d ∧ d ≤ 5 then some (ratTrunc d) else none
        | none => none
      let rating : Option Int :=
        match argNum arguments "rating" with
        | some r => if 1 ≤ r ∧ r ≤ 5 then some (ratTrunc r) else none
        | none => none
      let totalTime : Int :=
        match prepTime, cookTime with
        | some p, some c => p + c
        | _, _ => 0
      let totalTimePtr : Option Int := if 0 < totalTime then some totalTime else none
      let genrePtr : Option String := if genre ≠ "" then some genre else none
      let groceryListPtr : Option String := if groceryList ≠ "" then some groceryList else none
      let difficultyPtr : Option String := difficulty.map toString
      let recipe : Recipes :=
        { ID := env.newUUID, Title := title, Data := data, Genre := genrePtr,
          GroceryList := groceryListPtr, PrepTime := prepTime, CookTime := cookTime,
          TotalTime := totalTimePtr, Servings := servings, Difficulty := difficultyPtr,
          Rating := rating, Tags := tags, UserUID := some userUID,
          HouseholdUID := some householdUID }
      match env.createRecipes recipe with
      | Except.error e =>
        { IsError := true, Content := [⟨"text", "Error: Failed to save recipe: " ++ e⟩] }
      | Except.ok created =>
        { Content := [⟨"text", "Recipe saved successfully with ID: " ++ created.ID⟩] }

/-- The `dao.ListOptions` that `handleFindRecipes` hands to the
collaborator, including the synthesized `min_rating` filter. -/
def findRecipesOptions (arguments : Args) : ListOptions :=
  let limit := mcpLimit arguments
  let filters := BuildFiltersFromMCP arguments RecipesFilters.Filters
  let filters :=
    match argNum arguments "min_rating" with
    | some minRating => mapInsert filters "rating" (">=" ++ toString (ratTrunc minRating))
    | none => filters
  let r := BuildWhereClause filters RecipesFilters.Filters
  { Limit := limit, Offset := 0, SortBy := "rating", SortDir := "DESC",
    WhereClause := r.1, WhereArgs := r.2 }

/-- `handleFindRecipes`. -/
def handleFindRecipes (env : Env) (arguments : Args) : CallToolResult :=
  match env.listRecipes (findRecipesOptions arguments) with
  | Except.error e =>
    { IsError := true, Content := [⟨"text", "Error: Failed to find recipes: " ++ e⟩] }
  | Except.ok recipes =>
    { Content := [⟨"text", env.marshalRecipesList recipes⟩] }

/-- `handleGetRecipe`. -/
def handleGetRecipe (env : Env) (arguments : Args) : CallToolResult :=
  let recipeID := (argString arguments "recipe_id").getD ""
  if recipeID = "" then
    { IsError := true, Content := [⟨"text", "Error: recipe_id is required"⟩] }
  else
    match env.getRecipes recipeID with
    | Except.error e =>
      { IsError := true, Content := [⟨"text", "Error: Recipe not found: " ++ e⟩] }
    | Except.ok recipe =>
      { Content := [⟨"text", env.marshalRecipes recipe⟩] }

/-- `handleUpdateUserDescription`: requires a nonempty `user_uid` string and
a `description` string (which may be empty); on success the confirmation
text carries the whole updated user serialized. -/
def handleUpdateUserDescription (env : Env) (arguments : Args) : CallToolResult :=
  match argString arguments "user_uid" with
  | none =>
    { IsError := true, Content := [⟨"text", "Error: user_uid is required"⟩] }
  | some userUID =>
    if userUID = "" then
      { IsError := true, Content := [⟨"text", "Error: user_uid is required"⟩] }
    else
      match argString arguments "description" with
      | none =>
        { IsError := true, Content := [⟨"text", "Error: description is required"⟩] }
      | some description =>
        match env.updateUser userUID { Description := some description } with
        | Except.error e =>
          { IsError := true,
            Content := [⟨"text", "Error: Failed to update user description: " ++ e⟩] }
        | Except.ok updatedUser =>
          { Content := [⟨"text",
              "User description updated successfully: " ++ env.marshalUsers updatedUser⟩] }

/-- `handleUpdateHouseholdDescription`: same contract for households. -/
def handleUpdateHouseholdDescription (env : Env) (arguments : Args) : CallToolResult :=
  match argString arguments "household_uid" with
  | none =>
    { IsError := true, Content := [⟨"text", "Error: household_uid is required"⟩] }
  | some householdUID =>
    if householdUID = "" then
      { IsError := true, Content := [⟨"text", "Error: household_uid is required"⟩] }
    else
      match argString arguments "description" with
      | none =>
        { IsError := true, Content := [⟨"text", "Error: description is required"⟩] }
      | some description =>
        match env.updateHousehold householdUID { Description := some description } with
        | Except.error e =>
          { IsError := true,
            Content := [⟨"text", "Error: Failed to update household description: " ++ e⟩] }
        | Except.ok updatedHousehold =>
          { Content := [⟨"text",
              "Household description updated successfully: " ++
                env.marshalHouseholds updatedHousehold⟩] }

/-- The tool catalog built by `setupTools`, returned verbatim on
`tools/list`. -/
def tools : List Tool :=
  [{ name := "create_todo", description := "Create a new todo task",
     params := [
      { name := "title", ptype := "string", required := true, description := "Task title" },
      { name := "description", ptype := "string", description := "Task description" },
      { name := "priority", ptype := "number", description := "Priority level 1-5 (5 is highest)" },
      { name := "due_date", ptype := "string", description := "Due date in RFC3339 format (e.g., 2024-01-15T10:00:00Z)" },
      { name := "user_uid", ptype := "string", description := "User ID" },
      { name := "household_uid", ptype := "string", description := "Household ID" }] },
   { name := "list_todos", description := "List todos with optional filtering",
     params := [
      { name := "user_uid", ptype := "string", description := "Filter by user ID" },
      { name := "household_uid", ptype := "string", description := "Filter by household ID" },
      { name := "priority", ptype := "number", description := "Filter by priority level" },
      { name := "tags", ptype := "string", description := "Filter by tags (comma-separated)" },
      { name := "completed_only", ptype := "boolean", description := "Show only completed todos" },
      { name := "pending_only", ptype := "boolean", description := "Show only pending todos" },
      { name := "limit", ptype := "number", description := "Maximum number of results (default 20)" }] },
   { name := "complete_todo", description := "Mark a todo as completed",
     params := [
      { name := "todo_id", ptype := "string", required := true, description := "Todo UID to complete" },
      { name := "completed_by", ptype := "string", description := "User ID who completed the task" }] },
   { name := "save_note", description := "Save a note with a key for later retrieval",
     params := [
      { name := "key", ptype := "string", required := true, description := "Unique key for the note" },
      { name := "data", ptype := "string", required := true, description := "Structured note content" },
      { name := "user_uid", ptype := "string", description := "User ID" },
      { name := "household_uid", ptype := "string", description := "Household ID" },
      { name := "tags", ptype := "string", description := "Comma-separated tags" }] },
   { name := "recall_note", description := "Retrieve a saved note by key",
     params := [
      { name := "note_id", ptype := "string", required := true, description := "Note ID to retrieve" }] },
   { name := "list_notes", description := "List notes with optional filtering",
     params := [
      { name := "key", ptype := "string", description := "Filter by key" },
      { name := "user_uid", ptype := "string", description := "Filter by user ID" },
      { name := "household_uid", ptype := "string", description := "Filter by household ID" },
      { name := "tags", ptype := "string", description := "Filter by tags (comma-separated)" },
      { name := "limit", ptype := "number", description := "Maximum number of results (default 20)" }] },
   { name := "set_preference", description := "Set a user preference",
     params := [
      { name := "key", ptype := "string", required := true, description := "Preference key" },
      { name := "specifier", ptype := "string", required := true, description := "Preference specifier (user-specific identifier)" },
      { name := "data", ptype := "string", required := true, description := "Structured preference data" },
      { name := "tags", ptype := "string", description := "Comma-separated tags" }] },
   { name := "get_preference", description := "Get a user preference",
     params := [
      { name := "key", ptype := "string", required := true, description := "Preference key" },
      { name := "specifier", ptype := "string", required := true, description := "Preference specifier" }] },
   { name := "save_recipe", description := "Save a recipe",
     params := [
      { name := "title", ptype := "string", required := true, description := "Recipe title" },
      { name := "data", ptype := "string", required := true, description := "Recipe instructions as structured data" },
      { name := "genre", ptype := "string", description := "Recipe genre/category" },
      { name := "grocery_list", ptype := "string", description := "Grocery list as structured data" },
      { name := "prep_time", ptype := "number", description := "Prep time in minutes" },
      { name := "cook_time", ptype := "number", description := "Cook time in minutes" },
      { name := "servings", ptype := "number", description := "Number of servings" },
      { name := "difficulty", ptype := "number", description := "Difficulty level 1-5" },
      { name := "rating", ptype := "number", description := "Rating 1-5" },
      { name := "user_uid", ptype := "string", description := "User ID" },
      { name := "household_uid", ptype := "string", description := "Household ID" },
      { name := "tags", ptype := "string", description := "Comma-separated tags" }] },
   { name := "find_recipes", description := "Search recipes by criteria",
     params := [
      { name := "title", ptype := "string", description := "Filter by title (partial match)" },
      { name := "genre", ptype := "string", description := "Filter by genre" },
      { name := "max_cook_time", ptype := "number", description := "Maximum cook time in minutes" },
      { name := "min_rating", ptype := "number", description := "Minimum rating" },
      { name := "tags", ptype := "string", description := "Comma-separated tags to filter by" },
      { name := "user_uid", ptype := "string", description := "Filter by user ID" },
      { name := "household_uid", ptype := "string", description := "Filter by household ID" },
      { name := "limit", ptype := "number", description := "Maximum number of results (default 20)" }] },
   { name := "get_recipe", description := "Get a specific recipe by ID",
     params := [
      { name := "recipe_id", ptype := "string", required := true, description := "Recipe ID" }] },
   { name := "update_user_description", description := "Update a user's description",
     params := [
      { name := "user_uid", ptype := "string", required := true, description := "User ID" },
      { name := "description", ptype := "string", required := true, description := "New description for the user" }] },
   { name := "update_household_description", description := "Update a household's description",
     params := [
      { name := "household_uid", ptype := "string", required := true, description := "Household ID" },
      { name := "description", ptype := "string", required := true, description := "New description for the household" }] }]

/-- `callTool`: the switch over tool names, falling through to the
unknown-tool error result. -/
def callTool (env : Env) (name : String) (arguments : Args) : CallToolResult :=
  if name = "create_todo" then handleCreateTodo env arguments
  else if name = "list_todos" then handleListTodos env arguments
  else if name = "complete_todo" then handleCompleteTodo env arguments
  else if name = "save_note" then handleSaveNote env arguments
  else if name = "recall_note" then handleRecallNote env arguments
  else if name = "list_notes" then handleListNotes env arguments
  else if name = "set_preference" then handleSetPreference env arguments
  else if name = "get_preference" then handleGetPreference env arguments
  else if name = "save_recipe" then handleSaveRecipe env arguments
  else if name = "find_recipes" then handleFindRecipes env arguments
  else if name = "get_recipe" then handleGetRecipe env arguments
  else if name = "update_user_description" then handleUpdateUserDescription env arguments
  else if name = "update_household_description" then handleUpdateHouseholdDescription env arguments
  else
    { IsError := true, Content := [⟨"text", "Error: Unknown tool: " ++ name⟩] }

/-- `ServerInfo` constant from `NewMCP`. -/
structure ServerInfo where
  name : String
  title : String
  version : String
  deriving Repr, DecidableEq

/-- Tools capability flag. -/
structure ToolsCapability where
  listChanged : Bool
  deriving Repr, DecidableEq

/-- Server capabilities (only the tools capability is populated). -/
structure ServerCapabilities where
  tools : Option ToolsCapability := none
  deriving Repr, DecidableEq

/-- `InitializeResult`. -/
structure InitializeResult where
  protocolVersion : String
  capabilities : ServerCapabilities
  serverInfo : ServerInfo
  instructions : String
  deriving Repr, DecidableEq

/-- The fixed result of `handleInitialize`; recording `clientInfo` mutates
handler state and does not influence the response. -/
def initializeResult : InitializeResult :=
  { protocolVersion := "2024-11-05",
    capabilities := { tools := some { listChanged := true } },
    serverInfo := { name := "assistant-server", title := "Assistant Server MCP", version := "1.0.0" },
    instructions := "Assistant Server MCP provides tools for managing todos, notes, preferences, and recipes." }

/-- The typed view of the `any`-valued `Result` field of a JSON-RPC
response. -/
inductive RPCResult where
  | initResult (r : InitializeResult)
  | emptyObj
  | toolsList (ts : List Tool)
  | toolCall (r : CallToolResult)

/-- A JSON-RPC error object. -/
structure RPCError where
  code : Int
  message : String
  deriving Repr, DecidableEq

/-- A decoded `JSONRPCRequest`. -/
structure JSONRPCRequest where
  jsonrpc : String
  id : JValue
  method : String
  params : JValue

/-- A `JSONRPCResponse`; `Result` and `Error` carry `omitempty`, embedded
as `Option`. -/
structure JSONRPCResponse where
  JSONRPC : String
  ID : JValue
  Result : Option RPCResult := none
  Error : Option RPCError := none

/-- Go assertion `params["arguments"].(map[string]any)` with the nil map on
failure: the tool-call arguments extracted from the params object. -/
def mcpArguments (fields : List (String × JValue)) : Args :=
  match fields.lookup "arguments" with
  | some (JValue.obj a) => a
  | _ => []

/-- `ServeHTTP` from the point where the JSON-RPC envelope has been decoded
(a malformed body is answered with HTTP 400 before any JSON-RPC response
exists and is outside this embedding). -/
def ServeHTTP (env : Env) (req : JSONRPCRequest) : JSONRPCResponse :=
  let base : JSONRPCResponse := { JSONRPC := "2.0", ID := req.id }
  if req.method = "initialize" then
    match req.params with
    | JValue.obj _ => { base with Result := some (RPCResult.initResult initializeResult) }
    | _ => { base with Error := some { code := -32602, message := "Invalid params" } }
  else if req.method = "initialized" then
    { base with Result := some RPCResult.emptyObj }
  else if req.method = "tools/list" then
    { base with Result := some (RPCResult.toolsList tools) }
  else if req.method = "tools/call" then
    match req.params with
    | JValue.obj fields =>
      match fields.lookup "name" with
      | some (JValue.str toolName) =>
        { base with Result := some (RPCResult.toolCall (callTool env toolName (mcpArguments fields))) }
      | _ => { base with Error := some { code := -32602, message := "Tool name is required" } }
    | _ => { base with Error := some { code := -32602, message := "Invalid params" } }
  else
    { base with Error := some { code := -32601, message := "Method not found" } }

/-- A concrete collaborator instantiation (every DAO call fails, every
library function returns a fixed value), used to evaluate the dispatcher at
concrete requests. -/
def trivialEnv : Env :=
  { createTodo := fun _ => Except.error "down",
    updateTodo := fun _ _ => Except.error "down",
    listTodos := fun _ => Except.error "down",
    createNotes := fun _ => Except.error "down",
    getNotes := fun _ => Except.error "down",
    listNotes := fun _ => Except.error "down",
    getPreferences := fun _ _ => Except.error "down",
    createPreferences := fun _ => Except.error "down",
    updatePreferences := fun _ _ _ => Except.error "down",
    createRecipes := fun _ => Except.error "down",
    getRecipes := fun _ => Except.error "down",
    listRecipes := fun _ => Except.error "down",
    updateUser := fun _ _ => Except.error "down",
    updateHousehold := fun _ _ => Except.error "down",
    newUUID := "00000000-0000-0000-0000-000000000000",
    now := "2024-01-01T00:00:00Z",
    parseRFC3339 := fun _ => none,
    marshalTodoList := fun _ => "[]",
    marshalNotes := fun _ => "\x7b\x7d",
    marshalNotesList := fun _ => "[]",
    marshalPreferences := fun _ => "\x7b\x7d",
    marshalRecipes := fun _ => "\x7b\x7d",
    marshalRecipesList := fun _ => "[]",
    marshalUsers := fun _ => "\x7b\x7d",
    marshalHouseholds := fun _ => "\x7b\x7d" }

/-- A concrete collaborator instantiation whose user and household updates
always succeed, echoing the requested description. -/
def okEnv : Env :=
  { trivialEnv with
    updateUser := fun uid upd =>
      Except.ok
        { UID := uid, Name := "n", Email := "e",
          Description := upd.Description.getD "", CreatedAt := "c", UpdatedAt := "u" },
    updateHousehold := fun uid upd =>
      Except.ok
        { UID := uid, Name := "n",
          Description := upd.Description.getD "", CreatedAt := "c", UpdatedAt := "u" } }

lemma tools_names :
    tools.map Tool.name =
      ["create_todo", "list_todos", "complete_todo", "save_note", "recall_note",
       "list_notes", "set_preference", "get_preference", "save_recipe", "find_recipes",
       "get_recipe", "update_user_description", "update_household_description"] := rfl

lemma callTool_unknown (env : Env) (arguments : Args) (toolName : String)
    (hunknown : toolName ∉ tools.map Tool.name) :
    callTool env toolName arguments =
      { IsError := true, Content := [⟨"text", "Error: Unknown tool: " ++ toolName⟩] } := by
  rw [tools_names] at hunknown
  simp only [List.mem_cons, List.not_mem_nil, or_false, not_or] at hunknown
  obtain ⟨h1, h2, h3, h4, h5, h6, h7, h8, h9, h10, h11, h12, h13⟩ := hunknown
  simp only [callTool, if_neg h1, if_neg h2, if_neg h3, if_neg h4, if_neg h5, if_neg h6,
    if_neg h7, if_neg h8, if_neg h9, if_neg h10, if_neg h11, if_neg h12, if_neg h13]

lemma serveHTTP_toolsCall (env : Env) (id : JValue) (fields : List (String × JValue))
    (toolName : String) (hname : fields.lookup "name" = some (JValue.str toolName)) :
    ServeHTTP env { jsonrpc := "2.0", id := id, method := "tools/call", params := JValue.obj fields } =
      { JSONRPC := "2.0", ID := id,
        Result := some (RPCResult.toolCall (callTool env toolName (mcpArguments fields))) } := by
  simp [ServeHTTP, hname]

/-- C7: for every environment and every `tools/call` request whose
`params.name` is a string outside the 13 registered tool names, the
response carries no top-level error object and its result is a tool-level
error with text containing `Unknown tool: <name>`. -/
theorem unknown_tool_protocol_success (env : Env) (id : JValue)
    (fields : List (String × JValue)) (toolName : String)
    (hname : fields.lookup "name" = some (JValue.str toolName))
    (hunknown : toolName ∉ tools.map Tool.name) :
    (ServeHTTP env
      { jsonrpc := "2.0", id := id, method := "tools/call",
        params := JValue.obj fields }).Error = none ∧
    (ServeHTTP env
      { jsonrpc := "2.0", id := id, method := "tools/call",
        params := JValue.obj fields }).Result =
      some (RPCResult.toolCall
        { IsError := true, Content := [⟨"text", "Error: Unknown tool: " ++ toolName⟩] }) ∧
    (∃ pre post : String,
      "Error: Unknown tool: " ++ toolName = pre ++ ("Unknown tool: " ++ toolName) ++ post) := by
  rw [serveHTTP_toolsCall env id fields toolName hname,
    callTool_unknown env (mcpArguments fields) toolName hunknown]
  refine ⟨rfl, rfl, "Error: ", "", ?_⟩
  have hlit : ("Error: " : String) ++ "Unknown tool: " = "Error: Unknown tool: " := by decide
  rw [String.append_empty, ← String.append_assoc, hlit]

/-- C7 witness: calling the unregistered tool `nonexistent_tool`. -/
theorem unknown_tool_protocol_success_witness :
    (ServeHTTP trivialEnv
      { jsonrpc := "2.0", id := JValue.null, method := "tools/call",
        params := JValue.obj [("name", JValue.str "nonexistent_tool")] }).Error = none ∧
    (ServeHTTP trivialEnv
      { jsonrpc := "2.0", id := JValue.null, method := "tools/call",
        params := JValue.obj [("name", JValue.str "nonexistent_tool")] }).Result =
      some (RPCResult.toolCall
        { IsError := true,
          Content := [⟨"text", "Error: Unknown tool: " ++ "nonexistent_tool"⟩] }) ∧
    (∃ pre post : String,
      "Error: Unknown tool: " ++ "nonexistent_tool" =
        pre ++ ("Unknown tool: " ++ "nonexistent_tool") ++ post) :=
  unknown_tool_protocol_success trivialEnv JValue.null
    [("name", JValue.str "nonexistent_tool")] "nonexistent_tool" rfl (by decide)

/-- C8: for every environment and every request whose method is
`tools/list`, the response has no error and returns the catalog, which
consists of exactly the 13 registered tool descriptors whose names match
the fixed list. -/
theorem toolsList_returns_catalog (env : Env) (req : JSONRPCRequest)
    (h : req.method = "tools/list") :
    (ServeHTTP env req).Error = none ∧
    (ServeHTTP env req).Result = some (RPCResult.toolsList tools) ∧
    tools.map Tool.name =
      ["create_todo", "list_todos", "complete_todo", "save_note", "recall_note",
       "list_notes", "set_preference", "get_preference", "save_recipe", "find_recipes",
       "get_recipe", "update_user_description", "update_household_description"] ∧
    tools.length = 13 := by
  obtain ⟨j, i, m, p⟩ := req
  subst h
  exact ⟨rfl, rfl, tools_names, rfl⟩

/-- C8 witness: the catalog theorem applied to a concrete `tools/list`
request. -/
theorem toolsList_returns_catalog_witness :
    (ServeHTTP trivialEnv
      { jsonrpc := "2.0", id := JValue.num 1, method := "tools/list",
        params := JValue.null }).Error = none ∧
    (ServeHTTP trivialEnv
      { jsonrpc := "2.0", id := JValue.num 1, method := "tools/list",
        params := JValue.null }).Result = some (RPCResult.toolsList tools) ∧
    tools.map Tool.name =
      ["create_todo", "list_todos", "complete_todo", "save_note", "recall_note",
       "list_notes", "set_preference", "get_preference", "save_recipe", "find_recipes",
       "get_recipe", "update_user_description", "update_household_description"] ∧
    tools.length = 13 :=
  toolsList_returns_catalog trivialEnv
    { jsonrpc := "2.0", id := JValue.num 1, method := "tools/list", params := JValue.null } rfl

/-- C9: with a persistence collaborator that does not fail, the two
description-update tools error exactly when the respective id argument is
missing (or not a string) or empty, or no `description` string argument is
supplied — an empty `description` is accepted — and on success the
confirmation text contains the full updated entity serialized. -/
theorem updateDescription_validation (env : Env) (arguments : Args)
    (hU : ∀ uid upd, ∃ u, env.updateUser uid upd = Except.ok u)
    (hH : ∀ uid upd, ∃ h, env.updateHousehold uid upd = Except.ok h) :
    ((handleUpdateUserDescription env arguments).IsError = true ↔
      (argString arguments "user_uid" = none ∨ argString arguments "user_uid" = some "" ∨
        argString arguments "description" = none)) ∧
    ((handleUpdateHouseholdDescription env arguments).IsError = true ↔
      (argString arguments "household_uid" = none ∨
        argString arguments "household_uid" = some "" ∨
        argString arguments "description" = none)) ∧
    (∀ uid d u, argString arguments "user_uid" = some uid → uid ≠ "" →
      argString arguments "description" = some d →
      env.updateUser uid { Description := some d } = Except.ok u →
      handleUpdateUserDescription env arguments =
        { Content := [⟨"text",
            "User description updated successfully: " ++ env.marshalUsers u⟩] } ∧
      ∃ pre post : String,
        "User description updated successfully: " ++ env.marshalUsers u =
          pre ++ env.marshalUsers u ++ post) ∧
    (∀ uid d h, argString arguments "household_uid" = some uid → uid ≠ "" →
      argString arguments "description" = some d →
      env.updateHousehold uid { Description := some d } = Except.ok h →
      handleUpdateHouseholdDescription env arguments =
        { Content := [⟨"text",
            "Household description updated successfully: " ++ env.marshalHouseholds h⟩] } ∧
      ∃ pre post : String,
        "Household description updated successfully: " ++ env.marshalHouseholds h =
          pre ++ env.marshalHouseholds h ++ post) := by
  refine ⟨?_, ?_, ?_, ?_⟩
  · cases hA : argString arguments "user_uid" with
    | none => simp [handleUpdateUserDescription, hA]
    | some uid =>
      by_cases hu : uid = ""
      · simp [handleUpdateUserDescription, hA, hu]
      · cases hD : argString arguments "description" with
        | none => simp [handleUpdateUserDescription, hA, hu, hD]
        | some d =>
          obtain ⟨u, hok⟩ := hU uid { Description := some d }
          simp [handleUpdateUserDescription, hA, hu, hD, hok]
  · cases hA : argString arguments "household_uid" with
    | none => simp [handleUpdateHouseholdDescription, hA]
    | some uid =>
      by_cases hu : uid = ""
      · simp [handleUpdateHouseholdDescription, hA, hu]
      · cases hD : argString arguments "description" with
        | none => simp [handleUpdateHouseholdDescription, hA, hu, hD]
        | some d =>
          obtain ⟨h, hok⟩ := hH uid { Description := some d }
          simp [handleUpdateHouseholdDescription, hA, hu, hD, hok]
  · intro uid d u hA hu hD hok
    refine ⟨by simp [handleUpdateUserDescription, hA, hu, hD, hok],
      "User description updated successfully: ", "", ?_⟩
    rw [String.append_empty]
  · intro uid d h hA hu hD hok
    refine ⟨by simp [handleUpdateHouseholdDescription, hA, hu, hD, hok],
      "Household description updated successfully: ", "", ?_⟩
    rw [String.append_empty]

/-- C9 witness: against an always-succeeding collaborator, an empty
description with a valid id is accepted, and missing arguments are
rejected, for both tools. -/
theorem updateDescription_validation_witness :
    (handleUpdateUserDescription okEnv
        [("user_uid", JValue.str "u1"), ("description", JValue.str "")]).IsError = false ∧
    (handleUpdateUserDescription okEnv [("user_uid", JValue.str "u1")]).IsError = true ∧
    (handleUpdateHouseholdDescription okEnv [("description", JValue.str "x")]).IsError = true := by
  have hU : ∀ uid upd, ∃ u, okEnv.updateUser uid upd = Except.ok u := fun uid upd =>
    ⟨{ UID := uid, Name := "n", Email := "e", Description := upd.Description.getD "",
       CreatedAt := "c", UpdatedAt := "u" }, rfl⟩
  have hH : ∀ uid upd, ∃ h, okEnv.updateHousehold uid upd = Except.ok h := fun uid upd =>
    ⟨{ UID := uid, Name := "n", Description := upd.Description.getD "",
       CreatedAt := "c", UpdatedAt := "u" }, rfl⟩
  refine ⟨?_, ?_, ?_⟩
  · have h1 := (updateDescription_validation okEnv
      [("user_uid", JValue.str "u1"), ("description", JValue.str "")] hU hH).1
    have hfalse : ¬((handleUpdateUserDescription okEnv
        [("user_uid", JValue.str "u1"), ("description", JValue.str "")]).IsError = true) := by
      intro habs
      rcases h1.mp habs with hc | hc | hc
      · exact absurd hc (by decide)
      · exact absurd hc (by decide)
      · exact absurd hc (by decide)
    simpa using hfalse
  · exact (updateDescription_validation okEnv [("user_uid", JValue.str "u1")] hU hH).1.mpr
      (Or.inr (Or.inr rfl))
  · exact (updateDescription_validation okEnv [("description", JValue.str "x")] hU hH).2.1.mpr
      (Or.inl rfl)

lemma listTodosOptions_Limit (arguments : Args) :
    (listTodosOptions arguments).Limit = mcpLimit arguments := rfl

lemma listNotesOptions_Limit (arguments : Args) :
    (listNotesOptions arguments).Limit = mcpLimit arguments := rfl

lemma findRecipesOptions_Limit (arguments : Args) :
    (findRecipesOptions arguments).Limit = mcpLimit arguments := rfl

/-- C10: the limit forwarded to the persistence collaborator by
`list_todos`, `list_notes` and `find_recipes` is 20 when the `limit`
argument is absent, non-numeric or non-positive, and otherwise is the
argument truncated to an integer with no upper bound applied. -/
theorem mcp_list_limit_forwarding (arguments : Args) :
    (arguments.lookup "limit" = none →
      (listTodosOptions arguments).Limit = 20 ∧
      (listNotesOptions arguments).Limit = 20 ∧
      (findRecipesOptions arguments).Limit = 20) ∧
    (∀ v, arguments.lookup "limit" = some v → (∀ q : Rat, v ≠ JValue.num q) →
      (listTodosOptions arguments).Limit = 20 ∧
      (listNotesOptions arguments).Limit = 20 ∧
      (findRecipesOptions arguments).Limit = 20) ∧
    (∀ q : Rat, arguments.lookup "limit" = some (JValue.num q) → q ≤ 0 →
      (listTodosOptions arguments).Limit = 20 ∧
      (listNotesOptions arguments).Limit = 20 ∧
      (findRecipesOptions arguments).Limit = 20) ∧
    (∀ q : Rat, arguments.lookup "limit" = some (JValue.num q) → 0 < q →
      (listTodosOptions arguments).Limit = ratTrunc q ∧
      (listNotesOptions arguments).Limit = ratTrunc q ∧
      (findRecipesOptions arguments).Limit = ratTrunc q) := by
  have hmk : ∀ x : Int, mcpLimit arguments = x →
      (listTodosOptions arguments).Limit = x ∧
      (listNotesOptions arguments).Limit = x ∧
      (findRecipesOptions arguments).Limit = x := by
    intro x hx
    exact ⟨by rw [listTodosOptions_Limit, hx], by rw [listNotesOptions_Limit, hx],
      by rw [findRecipesOptions_Limit, hx]⟩
  refine ⟨?_, ?_, ?_, ?_⟩
  · intro h
    exact hmk 20 (by simp [mcpLimit, h])
  · intro v hv hnn
    refine hmk 20 ?_
    cases v with
    | num q => exact absurd rfl (hnn q)
    | null => simp [mcpLimit, hv]
    | bool b => simp [mcpLimit, hv]
    | str s => simp [mcpLimit, hv]
    | arr xs => simp [mcpLimit, hv]
    | obj fs => simp [mcpLimit, hv]
  · intro q hv hq
    exact hmk 20 (by simp [mcpLimit, hv, not_lt.mpr hq])
  · intro q hv hq
    exact hmk (ratTrunc q) (by simp [mcpLimit, hv, hq])

/-- C10 witness: a limit of 2500 passes through unclamped to all three
list tools, and an absent limit defaults to 20. -/
theorem mcp_list_limit_forwarding_witness :
    (listTodosOptions [("limit", JValue.num 2500)]).Limit = 2500 ∧
    (listNotesOptions [("limit", JValue.num 2500)]).Limit = 2500 ∧
    (findRecipesOptions [("limit", JValue.num 2500)]).Limit = 2500 ∧
    (listTodosOptions []).Limit = 20 := by
  obtain ⟨h1, h2, h3⟩ :=
    (mcp_list_limit_forwarding [("limit", JValue.num 2500)]).2.2.2 2500 rfl (by decide)
  obtain ⟨h4, _, _⟩ := (mcp_list_limit_forwarding []).1 rfl
  have ht : ratTrunc 2500 = 2500 := by decide
  exact ⟨by rw [h1, ht], by rw [h2, ht], by rw [h3, ht], h4⟩

end AssistantServer
